import Mathlib

/-!
Verification development for the outdoor-weather risk-assessment pipeline.

The Python source is shallowly embedded over `ℚ`: IEEE doubles become exact
rationals, numeric literals are carried verbatim, and the transcendental
primitives of the `math` module (`exp`, `log`, `sin`, `sqrt`, `**`, `pi`)
are abstracted into an `Ops` record, so every statement below that holds for
all `Ops` is a structural fact about the code independent of the float
library.  Fallible code (Python `raise`) is embedded with `Except`.
-/

/-- Abstraction of the transcendental primitives used by the source
(`math.exp`, `math.log`, `math.sin`, `math.sqrt`, float `**`, `math.pi`).
Theorems quantified over `Ops` hold for any implementation of these. -/
structure Ops where
  exp : ℚ → ℚ
  log : ℚ → ℚ
  sin : ℚ → ℚ
  sqrt : ℚ → ℚ
  powf : ℚ → ℚ → ℚ
  pi : ℚ

/-- Stand-in `Ops` instance used only to instantiate witnesses on concrete
inputs; the theorems themselves hold for every `Ops`. -/
def dummyOps : Ops where
  exp := fun _ => 1
  log := fun _ => 0
  sin := fun _ => 1/2
  sqrt := fun _ => 0
  powf := fun _ _ => 1
  pi := 3.14159

/-- Stirling-series branch of `log_gamma` (probability.py lines 300-319),
reached for arguments `≥ 0.5`. -/
def log_gamma_core (ops : Ops) (x0 : ℚ) : ℚ :=
  let x := x0 - 1
  let c0 : ℚ := 0.99999999999980993
  let c1 : ℚ := 676.5203681218851
  let c2 : ℚ := -1259.1392167224028
  let c3 : ℚ := 771.32342877765313
  let c4 : ℚ := -176.61502916214059
  let c5 : ℚ := 12.507343278686905
  let c6 : ℚ := -0.13857109526572012
  let c7 : ℚ := 9.9843695780195716e-6
  let c8 : ℚ := 1.5056327351493116e-7
  let s := c0 + c1 / (x + 1) + c2 / (x + 2) + c3 / (x + 3) + c4 / (x + 4)
    + c5 / (x + 5) + c6 / (x + 6) + c7 / (x + 7) + c8 / (x + 8)
  let t := x + 9 - 1.5
  1/2 * ops.log (2 * ops.pi) + (x + 1/2) * ops.log t - t + ops.log s

/-- `log_gamma` (probability.py lines 294-319).  The source recurses once
through the reflection formula when `x < 0.5`; the recursive argument `1 - x`
is then `> 0.5`, so that call always takes the Stirling branch, which lets the
recursion be unfolded into a single conditional. -/
def log_gamma (ops : Ops) (x : ℚ) : ℚ :=
  if x < 1/2 then
    ops.log ops.pi - ops.log (ops.sin (ops.pi * x)) - log_gamma_core ops (1 - x)
  else
    log_gamma_core ops x

/-- Convergence epsilon of the continued fraction (probability.py line 250). -/
def cfEps : ℚ := 1e-15

/-- One-per-iteration tail of `continued_fraction_beta` (probability.py lines
265-289); `m` is the Python loop index, `fuel` the remaining iterations. -/
def continued_fraction_aux (x a b : ℚ) (c d h : ℚ) (m : ℕ) : ℕ → ℚ
  | 0 => h
  | fuel + 1 =>
    let qab := a + b
    let qap := a + 1
    let qam := a - 1
    let m2 : ℚ := 2 * (m : ℚ)
    let aa := (m : ℚ) * (b - (m : ℚ)) * x / ((qam + m2) * (a + m2))
    let d1 := 1 + aa * d
    let d1 := if |d1| < cfEps then cfEps else d1
    let c1 := 1 + aa / c
    let c1 := if |c1| < cfEps then cfEps else c1
    let d1 := 1 / d1
    let h1 := h * d1 * c1
    let aa2 := -((a + (m : ℚ)) * (qab + (m : ℚ)) * x) / ((a + m2) * (qap + m2))
    let d2 := 1 + aa2 * d1
    let d2 := if |d2| < cfEps then cfEps else d2
    let c2 := 1 + aa2 / c1
    let c2 := if |c2| < cfEps then cfEps else c2
    let d2 := 1 / d2
    let del := d2 * c2
    let h2 := h1 * del
    if |del - 1| < cfEps then h2
    else continued_fraction_aux x a b c2 d2 h2 (m + 1) fuel

/-- `continued_fraction_beta` (probability.py lines 248-291): continued
fraction for the incomplete beta function, at most 1000 iterations. -/
def continued_fraction_beta (x a b : ℚ) : ℚ :=
  let qab := a + b
  let qap := a + 1
  let d := 1 - qab * x / qap
  let d := if |d| < cfEps then cfEps else d
  let d := 1 / d
  continued_fraction_aux x a b 1 d d 1 1000

/-- Recursion allowance for `incomplete_beta`, standing in for Python's
default recursion limit; the reachable depth is 2 for the parameters the
pipeline uses. -/
def ibetaFuel : ℕ := 1000

/-- `incomplete_beta` (probability.py lines 210-245): regularized incomplete
beta `I_x(a,b)` with the symmetry recursion made fuel-explicit. -/
def incomplete_beta (ops : Ops) : ℕ → ℚ → ℚ → ℚ → ℚ
  | 0, _, _, _ => 0
  | fuel + 1, x, a, b =>
    if x = 0 then 0
    else if x = 1 then 1
    else if x > (a + 1) / (a + b + 2) then
      1 - incomplete_beta ops fuel (1 - x) b a
    else
      let bt := ops.exp (log_gamma ops (a + b) - log_gamma ops a - log_gamma ops b
        + a * ops.log x + b * ops.log (1 - x))
      if x < (a + 1) / (a + b + 2) then bt * continued_fraction_beta x a b / a
      else 1 - bt * continued_fraction_beta (1 - x) b a / b

/-- `beta_cdf` (probability.py lines 155-177): clamp the argument, handle the
endpoints, then evaluate the incomplete beta function. -/
def beta_cdf (ops : Ops) (x a b : ℚ) : ℚ :=
  let x := if ¬(0 ≤ x ∧ x ≤ 1) then max 0 (min 1 x) else x
  if x = 0 then 0
  else if x = 1 then 1
  else incomplete_beta ops ibetaFuel x a b

/-- Bisection tolerance of `beta_inverse_cdf` (probability.py line 122). -/
def invTol : ℚ := 1e-12

/-- Bisection loop of `beta_inverse_cdf` (probability.py lines 136-152);
`fuel` is the remaining iteration count (100 at entry). -/
def beta_inv_loop (ops : Ops) (p a b : ℚ) : ℚ → ℚ → ℕ → ℚ
  | lower, upper, 0 => (lower + upper) / 2
  | lower, upper, fuel + 1 =>
    let x := (lower + upper) / 2
    let cdfx := beta_cdf ops x a b
    if |cdfx - p| < invTol then x
    else
      let lower1 := if cdfx < p then x else lower
      let upper1 := if cdfx < p then upper else x
      if |upper1 - lower1| < invTol then (lower1 + upper1) / 2
      else beta_inv_loop ops p a b lower1 upper1 fuel

/-- Unguarded core of `beta_inverse_cdf` (probability.py lines 114-152):
degenerate endpoints, the initial CDF bounds check, then bisection.  This is
the "bisection inverse of the continued-fraction incomplete-beta CDF". -/
def beta_inv_core (ops : Ops) (p a b : ℚ) : ℚ :=
  if p = 0 then 0
  else if p = 1 then 1
  else
    let cdfLower := beta_cdf ops 0 a b
    let cdfUpper := beta_cdf ops 1 a b
    if p ≤ cdfLower then 0
    else if p ≥ cdfUpper then 1
    else beta_inv_loop ops p a b 0 1 100

/-- `beta_inverse_cdf` (probability.py lines 92-152), including its
`ValueError` guards. -/
def beta_inverse_cdf (ops : Ops) (p a b : ℚ) : Except String ℚ :=
  if ¬(0 ≤ p ∧ p ≤ 1) then .error "p must be between 0 and 1"
  else if a ≤ 0 ∨ b ≤ 0 then .error "alpha and beta must be positive"
  else .ok (beta_inv_core ops p a b)

/-- `clopper_pearson_interval` (probability.py lines 327-386): validation,
edge cases, then the Beta-quantile bounds.  Integer arguments are carried
into `ℚ` exactly as Python ints are into floats. -/
def clopper_pearson_interval (ops : Ops) (successes trials : ℕ)
    (confidence_level : ℚ) : Except String (ℚ × ℚ) :=
  if ¬(successes ≤ trials) then
    .error "successes must be between 0 and trials"
  else if ¬(0 < confidence_level ∧ confidence_level < 1) then
    .error "confidence_level must be between 0 and 1"
  else
    let alpha := 1 - confidence_level
    if trials = 0 then .ok (0, 1)
    else if successes = 0 then
      (if 0 < trials then beta_inverse_cdf ops (1 - alpha / 2) 1 (trials : ℚ)
       else .ok 0).bind fun upper => .ok (0, upper)
    else if successes = trials then
      (if 0 < trials then beta_inverse_cdf ops (alpha / 2) (trials : ℚ) 1
       else .ok 1).bind fun lower => .ok (lower, 1)
    else
      (if 0 < successes then
        beta_inverse_cdf ops (alpha / 2) (successes : ℚ)
          ((trials : ℚ) - (successes : ℚ) + 1)
       else .ok 0).bind fun lower =>
      (if successes < trials then
        beta_inverse_cdf ops (1 - alpha / 2) ((successes : ℚ) + 1)
          ((trials : ℚ) - (successes : ℚ))
       else .ok 1).bind fun upper =>
      .ok (lower, upper)

/-- Modelled from the spec: the Clopper-Pearson case analysis of section 4.6
with `α = 0.05`, where `invBetaCDF` is `beta_inv_core`, the bisection inverse
of the continued-fraction incomplete-beta CDF.  Used only to compare the
source's `clopper_pearson_interval` against the spec's wording. -/
def clopper_pearson_spec (ops : Ops) (k n : ℕ) : ℚ × ℚ :=
  if n = 0 then (0, 1)
  else if k = 0 then (0, beta_inv_core ops (1 - 0.05 / 2) 1 (n : ℚ))
  else if k = n then (beta_inv_core ops (0.05 / 2) (n : ℚ) 1, 1)
  else
    (beta_inv_core ops (0.05 / 2) (k : ℚ) ((n : ℚ) - (k : ℚ) + 1),
     beta_inv_core ops (1 - 0.05 / 2) ((k : ℚ) + 1) ((n : ℚ) - (k : ℚ)))

/-- `celsius_to_fahrenheit` (calculations.py lines 181-183). -/
def celsius_to_fahrenheit (celsius : ℚ) : ℚ := celsius * 9 / 5 + 32

/-- `fahrenheit_to_celsius` (calculations.py lines 186-188). -/
def fahrenheit_to_celsius (fahrenheit : ℚ) : ℚ := (fahrenheit - 32) * 5 / 9

/-- `ms_to_mph` (calculations.py lines 191-193). -/
def ms_to_mph (meters_per_second : ℚ) : ℚ := meters_per_second * 2.23694

/-- `heat_index` (calculations.py lines 7-79): NWS Rothfusz heat index,
`none` when the validity domain does not apply, `ValueError` when the
relative humidity is outside `[0, 100]`. -/
def heat_index (ops : Ops) (temperature_c relative_humidity : ℚ) :
    Except String (Option ℚ) :=
  if ¬(0 ≤ relative_humidity ∧ relative_humidity ≤ 100) then
    .error "Relative humidity must be between 0-100%"
  else if temperature_c < 26.7 then .ok none
  else if relative_humidity < 40 then .ok none
  else
    let temp_f := celsius_to_fahrenheit temperature_c
    let rh := relative_humidity
    let hi_simple := 0.5 * (temp_f + 61 + (temp_f - 68) * 1.2 + rh * 0.094)
    let heat_index_f :=
      if hi_simple ≥ 80 then
        let hif := -42.379
          + 2.04901523 * temp_f
          + 10.14333127 * rh
          - 0.22475541 * temp_f * rh
          - 0.00683783 * temp_f * temp_f
          - 0.05481717 * rh * rh
          + 0.00122874 * temp_f * temp_f * rh
          + 0.00085282 * temp_f * rh * rh
          - 0.00000199 * temp_f * temp_f * rh * rh
        if rh < 13 ∧ 80 ≤ temp_f ∧ temp_f ≤ 112 then
          hif - ((13 - rh) / 4) * ops.sqrt ((17 - |temp_f - 95|) / 17)
        else if rh > 85 ∧ 80 ≤ temp_f ∧ temp_f ≤ 87 then
          hif + ((rh - 85) / 10) * ((87 - temp_f) / 5)
        else hif
      else hi_simple
    .ok (some (fahrenheit_to_celsius heat_index_f))

/-- `wind_chill` (calculations.py lines 82-132): NWS 2001 wind chill, `none`
when the validity domain does not apply, `ValueError` for negative wind. -/
def wind_chill (ops : Ops) (temperature_c wind_speed_ms : ℚ) :
    Except String (Option ℚ) :=
  if wind_speed_ms < 0 then .error "Wind speed cannot be negative"
  else if temperature_c > 10 then .ok none
  else if wind_speed_ms < 1.34 then .ok none
  else
    let temp_f := celsius_to_fahrenheit temperature_c
    let wind_mph := ms_to_mph wind_speed_ms
    let wind_chill_f := 35.74
      + 0.6215 * temp_f
      - 35.75 * ops.powf wind_mph 0.16
      + 0.4275 * temp_f * ops.powf wind_mph 0.16
    .ok (some (fahrenheit_to_celsius wind_chill_f))

/-- `feels_like_temperature` (calculations.py lines 135-175): heat index if
applicable, else wind chill, else the raw temperature. -/
def feels_like_temperature (ops : Ops) (temperature_c : ℚ)
    (relative_humidity wind_speed_ms : Option ℚ) : Except String ℚ :=
  (match relative_humidity with
    | some r => if 26.7 ≤ temperature_c then heat_index ops temperature_c r
                else .ok none
    | none => .ok none).bind fun hi =>
  match hi with
  | some h => .ok h
  | none =>
    (match wind_speed_ms with
      | some w => if temperature_c ≤ 10 then wind_chill ops temperature_c w
                  else .ok none
      | none => .ok none).bind fun wc =>
    match wc with
    | some c => .ok c
    | none => .ok temperature_c

/-- `Settings` (config.py lines 9-63): the scalar configuration fields with
their declared defaults.  String-valued fields (CORS origins, rate-limit
specs, URLs, cache paths, `default_baseline_end`, `default_hour_local`) carry
no behaviour analysed here and are omitted from the record; the complete
declared field list is `settingsFieldNames` below. -/
structure Settings where
  thresholds_hi_hot_c : ℚ := 41.0
  thresholds_hi_uncomf_c : ℚ := 32.0
  thresholds_wct_cold_c : ℚ := -10.0
  thresholds_wind_ms : ℚ := 10.8
  thresholds_rain_mm_per_h : ℚ := 4.0
  default_baseline_start : ℤ := 2001
  default_window_days : ℤ := 7
  coverage_min_years : ℕ := 15
  coverage_min_samples : ℕ := 8
  timeout_connect_s : ℕ := 10
  timeout_read_s : ℕ := 30
  retries : ℕ := 3

/-- The exact list of field names declared on `Settings` in config.py lines
13-50.  Accessing any attribute outside this list on a pydantic settings
object raises `AttributeError`; note in particular that `coverage_enforce`
(read by engine/samples.py line 205 and set by tests/test_samples.py) is not
declared. -/
def settingsFieldNames : List String :=
  ["thresholds_hi_hot_c", "thresholds_hi_uncomf_c", "thresholds_wct_cold_c",
   "thresholds_wind_ms", "thresholds_rain_mm_per_h", "allowed_origins",
   "rate_limit_general", "rate_limit_export", "default_baseline_start",
   "default_baseline_end", "default_window_days", "default_hour_local",
   "coverage_min_years", "coverage_min_samples", "timeout_connect_s",
   "timeout_read_s", "retries", "power_base_url", "cache_dir",
   "cache_max_gb", "cache_ttl_days"]

/-- `Settings()` with every default (config.py). -/
def defaultSettings : Settings := {}

/-- `WeatherSample` of thresholds.py lines 12-49: raw meteorology plus the
derived indices filled in by `__post_init__`.  The `timestamp` is abstracted
to its year, the only component the analysed statistics read
(trends.py line 34). -/
structure WeatherSampleT where
  temperature_c : ℚ
  relative_humidity : ℚ
  wind_speed_ms : ℚ
  precipitation_mm_per_day : ℚ
  timestamp_year : ℤ
  heat_index_c : Option ℚ
  wind_chill_c : Option ℚ
  feels_like_c : ℚ

/-- `WeatherSample.__post_init__` (thresholds.py lines 36-49): construct a
sample, computing the derived indices from the raw fields. -/
def mkWeatherSampleT (ops : Ops) (temperature_c relative_humidity wind_speed_ms
    precipitation_mm_per_day : ℚ) (timestamp_year : ℤ) :
    Except String WeatherSampleT :=
  (heat_index ops temperature_c relative_humidity).bind fun hi =>
  (wind_chill ops temperature_c wind_speed_ms).bind fun wc =>
  (feels_like_temperature ops temperature_c (some relative_humidity)
    (some wind_speed_ms)).bind fun fl =>
  .ok ⟨temperature_c, relative_humidity, wind_speed_ms,
    precipitation_mm_per_day, timestamp_year, hi, wc, fl⟩

/-- `WeatherConditionFlags` (thresholds.py lines 91-119). -/
structure WeatherConditionFlags where
  very_hot : Bool := false
  very_cold : Bool := false
  very_windy : Bool := false
  very_wet : Bool := false

/-- `WeatherConditionFlags.any_flagged` (thresholds.py lines 104-106). -/
def any_flagged (f : WeatherConditionFlags) : Bool :=
  f.very_hot || f.very_cold || f.very_windy || f.very_wet

/-- `WeatherConditionFlags.count_flagged` (thresholds.py lines 108-110). -/
def count_flagged (f : WeatherConditionFlags) : ℕ :=
  (if f.very_hot then 1 else 0) + (if f.very_cold then 1 else 0)
    + (if f.very_windy then 1 else 0) + (if f.very_wet then 1 else 0)

/-- `is_very_hot` (thresholds.py lines 122-144): heat index when available,
else air temperature, against the hot threshold. -/
def is_very_hot (sample : WeatherSampleT) (settings : Settings) : Bool :=
  match sample.heat_index_c with
  | some hi => decide (hi ≥ settings.thresholds_hi_hot_c)
  | none => decide (sample.temperature_c ≥ settings.thresholds_hi_hot_c)

/-- `is_very_cold` (thresholds.py lines 147-169): wind chill when available,
else air temperature, against the cold threshold. -/
def is_very_cold (sample : WeatherSampleT) (settings : Settings) : Bool :=
  match sample.wind_chill_c with
  | some wc => decide (wc ≤ settings.thresholds_wct_cold_c)
  | none => decide (sample.temperature_c ≤ settings.thresholds_wct_cold_c)

/-- `is_very_windy` (thresholds.py lines 172-186). -/
def is_very_windy (sample : WeatherSampleT) (settings : Settings) : Bool :=
  decide (sample.wind_speed_ms ≥ settings.thresholds_wind_ms)

/-- `is_very_wet` (thresholds.py lines 189-209): the daily total is converted
to an hourly rate by dividing by 8.0 ("distributed over ~8 hours of
daylight") before the threshold comparison. -/
def is_very_wet (sample : WeatherSampleT) (settings : Settings) : Bool :=
  decide (sample.precipitation_mm_per_day / 8 ≥ settings.thresholds_rain_mm_per_h)

/-- `flag_weather_conditions` (thresholds.py lines 212-246). -/
def flag_weather_conditions (sample : WeatherSampleT) (settings : Settings) :
    WeatherConditionFlags :=
  { very_hot := is_very_hot sample settings
    very_cold := is_very_cold sample settings
    very_windy := is_very_windy sample settings
    very_wet := is_very_wet sample settings }

/-- `WeatherSample` of engine/samples.py lines 17-35: the raw collector
record consumed by the exporter.  The two timestamps are abstracted away
(the exporter only stringifies `timestamp_local`); `year` and `doy` are kept. -/
structure WeatherSampleE where
  year : ℤ
  doy : ℤ
  latitude : ℚ
  longitude : ℚ
  temperature_c : ℚ
  relative_humidity : ℚ
  wind_speed_ms : ℚ
  precipitation_mm_per_day : ℚ
  data_source : String := "POWER"

/-- `ExportSampleRow` (models.py lines 223-242), minus the stringified local
timestamp, which carries no analysed behaviour. -/
structure ExportSampleRow where
  year : ℤ
  doy : ℤ
  lat : ℚ
  lon : ℚ
  t2m_c : ℚ
  rh2m_pct : ℚ
  ws10m_ms : ℚ
  hi_c : Option ℚ
  wct_c : Option ℚ
  precip_mm_per_h : ℚ
  precip_source : String
  flags_very_hot : Bool
  flags_very_cold : Bool
  flags_very_windy : Bool
  flags_very_wet : Bool
  flags_any_adverse : Bool

/-- Per-sample body of `create_export_rows` (exporter.py lines 31-91).  The
collector's `WeatherSample` has no `precipitation_mm_hourly` attribute, so
the `hasattr` branch never fires and the hourly rate is always
`precipitation_mm_per_day / 24.0`; likewise `getattr(sample,
'precipitation_source', 'POWER')` always yields the default `"POWER"`. -/
def create_export_row (ops : Ops) (sample : WeatherSampleE)
    (settings : Settings) : Except String ExportSampleRow :=
  (heat_index ops sample.temperature_c sample.relative_humidity).bind fun hi_c =>
  (wind_chill ops sample.temperature_c sample.wind_speed_ms).bind fun wct_c =>
  let precip_mm_per_h := sample.precipitation_mm_per_day / 24
  let precip_source := "POWER"
  let very_hot :=
    match hi_c with
    | some h => decide (h ≥ settings.thresholds_hi_hot_c)
    | none => decide (sample.temperature_c ≥ settings.thresholds_hi_hot_c)
  let very_cold :=
    match wct_c with
    | some w => decide (w ≤ settings.thresholds_wct_cold_c)
    | none => decide (sample.temperature_c ≤ settings.thresholds_wct_cold_c)
  let very_windy := decide (sample.wind_speed_ms ≥ settings.thresholds_wind_ms)
  let very_wet := decide (precip_mm_per_h ≥ settings.thresholds_rain_mm_per_h)
  let any_adverse := very_hot || very_cold || very_windy || very_wet
  .ok
    { year := sample.year
      doy := sample.doy
      lat := sample.latitude
      lon := sample.longitude
      t2m_c := sample.temperature_c
      rh2m_pct := sample.relative_humidity
      ws10m_ms := sample.wind_speed_ms
      hi_c := hi_c
      wct_c := wct_c
      precip_mm_per_h := precip_mm_per_h
      precip_source := precip_source
      flags_very_hot := very_hot
      flags_very_cold := very_cold
      flags_very_windy := very_windy
      flags_very_wet := very_wet
      flags_any_adverse := any_adverse }

/-- `create_export_rows` (exporter.py lines 15-93) over the collection's
sample list. -/
def create_export_rows (ops : Ops) (samples : List WeatherSampleE)
    (settings : Settings) : Except String (List ExportSampleRow) :=
  samples.mapM (fun s => create_export_row ops s settings)

/-- `TrendPoint` (models.py lines 158-162). -/
structure TrendPoint where
  year : ℤ
  exceedance_rate : ℚ

/-- `Trend` (models.py lines 165-174). -/
structure Trend where
  condition : String
  points : List TrendPoint
  slope : ℚ
  p_value : ℚ
  significant : Bool

/-- Per-sample predicate of `calculate_exceedance_rates_by_year`
(trends.py lines 53-64): an if/elif chain over the condition name, `False`
for anything unrecognised. -/
def condition_exceeded (flags : WeatherConditionFlags)
    (condition_type : String) : Bool :=
  if condition_type = "hot" then flags.very_hot
  else if condition_type = "cold" then flags.very_cold
  else if condition_type = "windy" then flags.very_windy
  else if condition_type = "wet" then flags.very_wet
  else if condition_type = "any" then
    flags.very_hot || flags.very_cold || flags.very_windy || flags.very_wet
  else false

/-- Distinct sample years in first-occurrence order: the key set of the
`yearly_samples` dict built in trends.py lines 32-37. -/
def trend_years (samples : List WeatherSampleT) : List ℤ :=
  samples.foldl
    (fun acc s => if acc.contains s.timestamp_year then acc
                  else acc ++ [s.timestamp_year]) []

/-- Yearly exceedance rate (trends.py lines 42-69): flagged count over total
for the samples of one year, 0 when the year has no samples. -/
def year_rate (samples : List WeatherSampleT) (condition_type : String)
    (settings : Settings) (year : ℤ) : ℚ :=
  let year_samples := samples.filter (fun s => s.timestamp_year = year)
  let total := year_samples.length
  let exceedances := (year_samples.filter (fun s =>
    condition_exceeded (flag_weather_conditions s settings) condition_type)).length
  if 0 < total then (exceedances : ℚ) / (total : ℚ) else 0

/-- `calculate_ols_slope_and_pvalue` (trends.py lines 74-143): OLS slope plus
the stepped p-value approximation; `(0, 1)` when fewer than 3 points. -/
def calculate_ols_slope_and_pvalue (ops : Ops) (x_values y_values : List ℚ) :
    ℚ × ℚ :=
  let n := x_values.length
  if n < 3 then (0, 1)
  else
    let x_mean := x_values.sum / (n : ℚ)
    let y_mean := y_values.sum / (n : ℚ)
    let numerator := ((x_values.zip y_values).map
      (fun p => (p.1 - x_mean) * (p.2 - y_mean))).sum
    let denominator := (x_values.map (fun x => (x - x_mean) ^ 2)).sum
    if denominator = 0 then (0, 1)
    else
      let slope := numerator / denominator
      let residuals := (x_values.zip y_values).map
        (fun p => p.2 - (slope * (p.1 - x_mean) + y_mean))
      let sse := (residuals.map (fun r => r ^ 2)).sum
      if n - 2 = 0 then (slope, 1)
      else
        let mse := sse / ((n : ℚ) - 2)
        let se_slope := ops.sqrt (mse / denominator)
        if se_slope = 0 then (slope, if slope = 0 then 1 else 0)
        else
          let t_stat := slope / se_slope
          let abs_t := |t_stat|
          (slope,
            if abs_t > 2.576 then 0.01
            else if abs_t > 1.96 then 0.05
            else if abs_t > 1.645 then 0.1
            else 0.5)

/-- Modelled from the spec (section 4.8 formula): the ordinary-least-squares
slope `Σ(xᵢ−x̄)(yᵢ−ȳ) / Σ(xᵢ−x̄)²`, used only to compare the trend engine's
output against the spec's slope. -/
def ols_slope_spec (x_values y_values : List ℚ) : ℚ :=
  let n := x_values.length
  let x_mean := x_values.sum / (n : ℚ)
  let y_mean := y_values.sum / (n : ℚ)
  ((x_values.zip y_values).map (fun p => (p.1 - x_mean) * (p.2 - y_mean))).sum
    / (x_values.map (fun x => (x - x_mean) ^ 2)).sum

/-- Ordered insertion without duplicates, the building block used to model
Python's `sorted(list(set(...)))` and `sorted(dict.keys())`. -/
def insertSorted (a : ℤ) : List ℤ → List ℤ
  | [] => [a]
  | b :: l => if a < b then a :: b :: l
              else if a = b then b :: l
              else b :: insertSorted a l

/-- `sorted(list(set(l)))`: the strictly increasing enumeration of the
members of `l`. -/
def sortDedup (l : List ℤ) : List ℤ := l.foldr insertSorted []

/-- `calculate_trend` (trends.py lines 146-198): no trend below 2 distinct
years, otherwise the year-sorted exceedance series with the OLS fit.
`sorted(yearly_rates.keys())` is modelled by `sortDedup` of the distinct
year list. -/
def calculate_trend (ops : Ops) (samples : List WeatherSampleT)
    (condition_type : String) (settings : Settings) : Trend :=
  let years := trend_years samples
  if years.length < 2 then
    { condition := condition_type, points := [], slope := 0, p_value := 1,
      significant := false }
  else
    let sorted_years := sortDedup years
    let points := sorted_years.map (fun y =>
      TrendPoint.mk y (year_rate samples condition_type settings y))
    let x_values := sorted_years.map (fun (y : ℤ) => (y : ℚ))
    let y_values := sorted_years.map (fun y =>
      year_rate samples condition_type settings y)
    let sp := calculate_ols_slope_and_pvalue ops x_values y_values
    { condition := condition_type, points := points, slope := sp.1,
      p_value := sp.2, significant := decide (sp.2 < 0.05) }

/-- Python `range(lo, hi)` over integers, as a list. -/
def intRange (lo hi : ℤ) : List ℤ :=
  (List.range (hi - lo).toNat).map (fun (i : ℕ) => lo + (i : ℤ))

/-- `build_date_range_for_doy` (timezone.py lines 168-203): DOY ± window with
a single-step year-boundary wrap, then `sorted(list(set(...)))`. -/
def build_date_range_for_doy (target_doy window_days : ℤ) :
    Except String (List ℤ) :=
  if ¬(1 ≤ target_doy ∧ target_doy ≤ 365) then
    .error "Invalid DOY: must be 1-365"
  else if window_days < 0 then
    .error "Invalid window_days: must be nonnegative"
  else
    let doy_range := (intRange (-window_days) (window_days + 1)).map
      (fun offset =>
        let doy_val := target_doy + offset
        if doy_val < 1 then 365 + doy_val
        else if doy_val > 365 then doy_val - 365
        else doy_val)
    .ok (sortDedup doy_range)

/-- Modelled from the spec (section 4.11): the DOY-window value set
`((target − 1 + offset) mod 365) + 1` for `offset ∈ [−w, +w]`, used only to
compare `build_date_range_for_doy` against the spec's formula.  Lean's `%`
on `ℤ` agrees with Python's `%` for the positive modulus 365. -/
def doyWindowList (target w : ℤ) : List ℤ :=
  (intRange (-w) (w + 1)).map (fun offset => (target - 1 + offset) % 365 + 1)

/-- Error outcomes of the sample collector's coverage epilogue. -/
inductive CollectError where
  | attributeError (missing : String)
  | insufficientCoverage

/-- Coverage epilogue of `collect_samples` (engine/samples.py lines
199-232).  `coverage_adequate` is the conjunction on line 200-203.  When it
is false, line 205 evaluates `settings.coverage_enforce`; `Settings`
(config.py) declares no field of that name (see `settingsFieldNames`), so
Python's attribute lookup raises `AttributeError` there, before any
`InsufficientCoverageError` could be raised.  When it is true the `and`
short-circuits and the collection is returned with `coverage_adequate`. -/
def collect_samples_finalize (years_with_data total_samples : ℕ)
    (settings : Settings) : Except CollectError Bool :=
  let coverage_adequate :=
    decide (years_with_data ≥ settings.coverage_min_years
      ∧ total_samples ≥ settings.coverage_min_samples)
  if ¬coverage_adequate then .error (.attributeError "coverage_enforce")
  else .ok coverage_adequate

/-- Exceptions that can flow through `PowerClient._make_request`
(power.py lines 85-127): the two httpx exception types named by the tenacity
`retry_if_exception_type` filter, and the client's own error types. -/
inductive PyExc where
  | httpxRequestError
  | httpxHTTPStatusError (code : ℕ)
  | powerRateLimit
  | powerAPIError

/-- Outcome of one underlying `client.get` call: a response with a status
code, or a transport failure. -/
inductive AttemptOutcome where
  | status (code : ℕ)
  | transportError

/-- `client.get` (power.py line 108): returns the response status or raises
`httpx.RequestError` on transport failure. -/
def client_get (o : AttemptOutcome) : Except PyExc ℕ :=
  match o with
  | .status code => .ok code
  | .transportError => .error .httpxRequestError

/-- `response.raise_for_status()` (power.py line 115): raises
`httpx.HTTPStatusError` on 4xx/5xx status codes. -/
def raise_for_status (code : ℕ) : Except PyExc Unit :=
  if 400 ≤ code then .error (.httpxHTTPStatusError code) else .ok ()

/-- Body of `PowerClient._make_request` (power.py lines 106-127): the try
block raises `PowerAPIRateLimitError` on 429, and the except clauses convert
`httpx.HTTPStatusError` and `httpx.RequestError` into `PowerAPIError` before
they can escape. -/
def make_request_body (o : AttemptOutcome) : Except PyExc ℕ :=
  let tried : Except PyExc ℕ :=
    (client_get o).bind fun code =>
    if code = 429 then .error .powerRateLimit
    else (raise_for_status code).bind fun _ => .ok code
  match tried with
  | .error (.httpxHTTPStatusError _) => .error .powerAPIError
  | .error .httpxRequestError => .error .powerAPIError
  | r => r

/-- The tenacity retry filter on `_make_request` (power.py line 88):
`retry_if_exception_type((httpx.RequestError, httpx.HTTPStatusError))`. -/
def tenacity_retry_pred : PyExc → Bool
  | .httpxRequestError => true
  | .httpxHTTPStatusError _ => true
  | _ => false

/-- Tenacity's attempt loop under `stop_after_attempt(3)` (power.py lines
85-90): run the body; on an exception matching the retry filter, retry while
fewer than 3 attempts have been used, otherwise propagate.  `behavior` gives
the upstream outcome of each attempt; the result carries the number of
attempts performed. -/
def retry_call (behavior : ℕ → AttemptOutcome) :
    ℕ → ℕ → Except PyExc ℕ × ℕ
  | attempt, 0 => (make_request_body (behavior attempt), attempt)
  | attempt, fuel + 1 =>
    match make_request_body (behavior attempt) with
    | .ok v => (.ok v, attempt)
    | .error e =>
      if tenacity_retry_pred e && decide (attempt < 3) then
        retry_call behavior (attempt + 1) fuel
      else (.error e, attempt)

/-- `PowerClient._make_request` under its tenacity decorator: first attempt
is number 1, at most 3 attempts. -/
def make_request_run (behavior : ℕ → AttemptOutcome) : Except PyExc ℕ × ℕ :=
  retry_call behavior 1 3

/-- NASA POWER daily response as consumed by the pipeline: the `error` key
marker plus `properties.parameter`, a map from parameter id to a map from
date key to value (`none` when `properties`/`parameter` is missing).
Association lists model the JSON objects; values are raw upstream numbers,
so the sentinel `-999` is representable. -/
structure PowerResponse where
  hasError : Bool
  parameter : Option (List (String × List (String × ℚ)))

/-- `PowerClient._validate_response_data` (power.py lines 129-153). -/
def validate_response_data (r : PowerResponse) : Except String Unit :=
  if r.hasError then .error "POWER API error"
  else
    match r.parameter with
    | none => .error "Missing parameter data in POWER API response"
    | some _ => .ok ()

/-- Data path of `PowerClient.get_daily_data` (power.py lines 155-218) after
a successful request: validate the structure and return the payload
unchanged; no transformation of parameter values happens on exit. -/
def get_daily_data_result (r : PowerResponse) : Except String PowerResponse :=
  (validate_response_data r).bind fun _ => .ok r

/-- Per-day body of `_collect_samples_for_year` (engine/samples.py lines
289-369): iterate the `T2M` date keys, look each key up in all four
parameter maps, skip the day when temperature, humidity or wind is missing,
substitute 0.0 for missing precipitation, and copy the values verbatim into
a `WeatherSample`.  `dateInfo` abstracts the `YYYYMMDD` string parsing to
`(year, doy)` (lines 307-312 and 352); a parse failure skips the day. -/
def collect_year_samples (dateInfo : String → Option (ℤ × ℤ))
    (latitude longitude : ℚ) (r : PowerResponse) : List WeatherSampleE :=
  match r.parameter with
  | none => []
  | some parameters =>
    let t2m_data := ((parameters.lookup "T2M").getD [])
    let rh2m_data := ((parameters.lookup "RH2M").getD [])
    let ws10m_data := ((parameters.lookup "WS10M").getD [])
    let prectot_data := ((parameters.lookup "PRECTOTCORR").getD [])
    (t2m_data.map Prod.fst).filterMap fun date_key =>
      match dateInfo date_key with
      | none => none
      | some yd =>
        let temperature_c := t2m_data.lookup date_key
        let relative_humidity := rh2m_data.lookup date_key
        let wind_speed_ms := ws10m_data.lookup date_key
        let precipitation_mm_per_day := prectot_data.lookup date_key
        match temperature_c, relative_humidity, wind_speed_ms with
        | some t, some rh, some ws =>
          some
            { year := yd.1
              doy := yd.2
              latitude := latitude
              longitude := longitude
              temperature_c := t
              relative_humidity := rh
              wind_speed_ms := ws
              precipitation_mm_per_day := precipitation_mm_per_day.getD 0
              data_source := "POWER" }
        | _, _, _ => none

/-- Concrete thresholds sample: 48 mm/day of rain, indices not applicable
(T = 25 < 26.7 and T > 10), consistent with `mkWeatherSampleT`. -/
def c3sample : WeatherSampleT :=
  { temperature_c := 25, relative_humidity := 50, wind_speed_ms := 3,
    precipitation_mm_per_day := 48, timestamp_year := 2001,
    heat_index_c := none, wind_chill_c := none, feels_like_c := 25 }

/-- Two concrete samples spanning exactly the years 2001 and 2002: the first
is dry (exceedance rate 0), the second wet (rate 1). -/
def c9samples : List WeatherSampleT :=
  [{ temperature_c := 25, relative_humidity := 50, wind_speed_ms := 3,
     precipitation_mm_per_day := 0, timestamp_year := 2001,
     heat_index_c := none, wind_chill_c := none, feels_like_c := 25 },
   { temperature_c := 25, relative_humidity := 50, wind_speed_ms := 3,
     precipitation_mm_per_day := 48, timestamp_year := 2002,
     heat_index_c := none, wind_chill_c := none, feels_like_c := 25 }]

/-- Concrete collector sample: 40 mm/day of rain, which is 5 mm/h at the
threshold engine's /8 conversion but only 5/3 mm/h at the exporter's /24. -/
def c10sampleE : WeatherSampleE :=
  { year := 2001, doy := 1, latitude := 0, longitude := 0,
    temperature_c := 25, relative_humidity := 50, wind_speed_ms := 3,
    precipitation_mm_per_day := 40, data_source := "POWER" }

/-- The thresholds-engine sample built from the same raw values as
`c10sampleE`. -/
def c10sampleT : WeatherSampleT :=
  { temperature_c := 25, relative_humidity := 50, wind_speed_ms := 3,
    precipitation_mm_per_day := 40, timestamp_year := 2001,
    heat_index_c := none, wind_chill_c := none, feels_like_c := 25 }

/-- Concrete upstream response carrying the raw sentinel `-999` as the
temperature of the single day, with the other three parameters present. -/
def c8response : PowerResponse :=
  { hasError := false
    parameter := some
      [("T2M", [("20200101", -999)]),
       ("RH2M", [("20200101", 50)]),
       ("WS10M", [("20200101", 3)]),
       ("PRECTOTCORR", [("20200101", 0)])] }

/-- Date-key interpretation for `c8response`: the one key parses to
year 2020, DOY 1. -/
def c8dateInfo : String → Option (ℤ × ℤ) :=
  fun k => if k = "20200101" then some (2020, 1) else none

theorem mem_insertSorted {x a : ℤ} {l : List ℤ} :
    x ∈ insertSorted a l ↔ x = a ∨ x ∈ l := by
  induction l with
  | nil => simp [insertSorted]
  | cons b t ih =>
    by_cases hab : a < b
    · simp [insertSorted, hab]
    · by_cases heq : a = b
      · subst heq
        simp only [insertSorted, if_neg hab, if_pos rfl]
        constructor
        · exact Or.inr
        · rintro (rfl | hx)
          · exact List.mem_cons_self _ _
          · exact hx
      · simp only [insertSorted, if_neg hab, if_neg heq, List.mem_cons, ih]
        tauto

theorem mem_sortDedup {x : ℤ} {l : List ℤ} : x ∈ sortDedup l ↔ x ∈ l := by
  induction l with
  | nil => simp [sortDedup]
  | cons b t ih =>
    show x ∈ insertSorted b (sortDedup t) ↔ _
    rw [mem_insertSorted, ih]
    simp [List.mem_cons]

theorem insertSorted_sorted {a : ℤ} {l : List ℤ}
    (h : l.Sorted (· < ·)) : (insertSorted a l).Sorted (· < ·) := by
  induction l with
  | nil => simp [insertSorted]
  | cons b t ih =>
    rw [List.sorted_cons] at h
    by_cases hab : a < b
    · simp only [insertSorted, if_pos hab]
      rw [List.sorted_cons]
      refine ⟨?_, List.sorted_cons.mpr h⟩
      intro y hy
      rcases List.mem_cons.mp hy with rfl | hy
      · exact hab
      · exact lt_trans hab (h.1 y hy)
    · by_cases heq : a = b
      · subst heq
        simpa [insertSorted, hab] using List.sorted_cons.mpr h
      · simp only [insertSorted, if_neg hab, if_neg heq]
        rw [List.sorted_cons]
        refine ⟨?_, ih h.2⟩
        intro y hy
        rcases mem_insertSorted.mp hy with rfl | hy
        · omega
        · exact h.1 y hy

theorem sortDedup_sorted (l : List ℤ) : (sortDedup l).Sorted (· < ·) := by
  induction l with
  | nil => simp [sortDedup]
  | cons b t ih => exact insertSorted_sorted ih

theorem sortDedup_nodup (l : List ℤ) : (sortDedup l).Nodup :=
  (sortDedup_sorted l).imp ne_of_lt

theorem sorted_lt_eq_of_mem_iff :
    ∀ {l₁ l₂ : List ℤ}, l₁.Sorted (· < ·) → l₂.Sorted (· < ·) →
    (∀ x, x ∈ l₁ ↔ x ∈ l₂) → l₁ = l₂
  | [], [], _, _, _ => rfl
  | [], b :: t, _, _, hm => absurd ((hm b).mpr (List.mem_cons_self b t)) (by simp)
  | a :: s, [], _, _, hm => absurd ((hm a).mp (List.mem_cons_self a s)) (by simp)
  | a :: s, b :: t, h₁, h₂, hm => by
    rw [List.sorted_cons] at h₁ h₂
    have hab : a = b := by
      have ha : a ∈ b :: t := (hm a).mp (List.mem_cons_self a s)
      have hb : b ∈ a :: s := (hm b).mpr (List.mem_cons_self b t)
      rcases List.mem_cons.mp ha with h | h
      · exact h
      · rcases List.mem_cons.mp hb with h' | h'
        · exact h'.symm
        · exact absurd (lt_trans (h₂.1 a h) (h₁.1 b h')) (lt_irrefl b)
    subst hab
    have htail : ∀ x, x ∈ s ↔ x ∈ t := by
      intro x
      constructor
      · intro hx
        have := (hm x).mp (List.mem_cons_of_mem a hx)
        rcases List.mem_cons.mp this with rfl | h
        · exact absurd (h₁.1 x hx) (lt_irrefl x)
        · exact h
      · intro hx
        have := (hm x).mpr (List.mem_cons_of_mem a hx)
        rcases List.mem_cons.mp this with rfl | h
        · exact absurd (h₂.1 x hx) (lt_irrefl x)
        · exact h
    rw [sorted_lt_eq_of_mem_iff h₁.2 h₂.2 htail]

theorem sortDedup_congr {l₁ l₂ : List ℤ} (h : ∀ x, x ∈ l₁ ↔ x ∈ l₂) :
    sortDedup l₁ = sortDedup l₂ :=
  sorted_lt_eq_of_mem_iff (sortDedup_sorted l₁) (sortDedup_sorted l₂)
    (fun x => by rw [mem_sortDedup, mem_sortDedup]; exact h x)

theorem length_sortDedup_eq_card (l : List ℤ) :
    (sortDedup l).length = l.toFinset.card := by
  have hfs : (sortDedup l).toFinset = l.toFinset := by
    apply Finset.ext
    intro x
    simp [List.mem_toFinset, mem_sortDedup]
  rw [← List.toFinset_card_of_nodup (sortDedup_nodup l), hfs]

theorem insertSorted_length_le (a : ℤ) (l : List ℤ) :
    (insertSorted a l).length ≤ l.length + 1 := by
  induction l with
  | nil => simp [insertSorted]
  | cons b t ih =>
    by_cases hab : a < b
    · simp [insertSorted, hab]
    · by_cases heq : a = b
      · simp [insertSorted, hab, heq]
      · simp only [insertSorted, if_neg hab, if_neg heq, List.length_cons]
        omega

theorem sortDedup_length_le (l : List ℤ) : (sortDedup l).length ≤ l.length := by
  induction l with
  | nil => simp [sortDedup]
  | cons b t ih =>
    show (insertSorted b (sortDedup t)).length ≤ t.length + 1
    calc (insertSorted b (sortDedup t)).length ≤ (sortDedup t).length + 1 :=
      insertSorted_length_le b (sortDedup t)
    _ ≤ t.length + 1 := by omega

theorem mem_intRange {lo hi x : ℤ} : x ∈ intRange lo hi ↔ lo ≤ x ∧ x < hi := by
  constructor
  · intro hx
    obtain ⟨i, hmem, hix⟩ := List.mem_map.mp hx
    have hilt : i < (hi - lo).toNat := List.mem_range.mp hmem
    omega
  · intro hx
    refine List.mem_map.mpr ⟨(x - lo).toNat, List.mem_range.mpr ?_, ?_⟩
    · omega
    · omega

theorem intRange_nodup (lo hi : ℤ) : (intRange lo hi).Nodup := by
  refine List.Nodup.map ?_ (List.nodup_range _)
  intro a b hab
  have hab' : lo + (a : ℤ) = lo + (b : ℤ) := hab
  omega

theorem intRange_length (lo hi : ℤ) :
    (intRange lo hi).length = (hi - lo).toNat := by
  rw [intRange, List.length_map, List.length_range]

/-- C3 (counterexample): at 48 mm/day under default settings the threshold
engine flags veryWet, yet 48/24 = 2 mm/h is below the 4 mm/h threshold, so
the claimed divide-by-24 characterisation is false on the code. -/
theorem is_very_wet_div24_counterexample :
    (flag_weather_conditions c3sample defaultSettings).very_wet = true ∧
    ¬(c3sample.precipitation_mm_per_day / 24 ≥
        defaultSettings.thresholds_rain_mm_per_h) := by
  constructor
  · norm_num [flag_weather_conditions, is_very_wet, c3sample, defaultSettings]
  · norm_num [c3sample, defaultSettings]

/-- C3 (amended): for every sample and settings, the threshold engine's
veryWet flag is true iff `precipitation_mm_per_day / 8 ≥
thresholds_rain_mm_per_h` (the source divides the daily total by 8, not
24). -/
theorem is_very_wet_iff_daily_div8 (sample : WeatherSampleT)
    (settings : Settings) :
    (flag_weather_conditions sample settings).very_wet = true ↔
    sample.precipitation_mm_per_day / 8 ≥ settings.thresholds_rain_mm_per_h := by
  simp [flag_weather_conditions, is_very_wet]

/-- C4: with relative humidity in [0,100], `heat_index` returns the missing
variant iff `T < 26.7 ∨ R < 40`; with nonnegative wind speed, `wind_chill`
returns the missing variant iff `T > 10 ∨ W < 1.34`. -/
theorem heat_index_wind_chill_missing_iff (ops : Ops) (T R W : ℚ)
    (hR0 : 0 ≤ R) (hR1 : R ≤ 100) (hW : 0 ≤ W) :
    (heat_index ops T R = .ok none ↔ T < 26.7 ∨ R < 40) ∧
    (wind_chill ops T W = .ok none ↔ T > 10 ∨ W < 1.34) := by
  constructor
  · unfold heat_index
    rw [if_neg (not_not_intro ⟨hR0, hR1⟩)]
    split_ifs with h1 h2
    · simp [h1]
    · simp [h1, h2]
    · simp [h1, h2]
  · unfold wind_chill
    rw [if_neg (not_lt.mpr hW)]
    split_ifs with h1 h2
    · simp [h1]
    · simp [h1, h2]
    · simp [h1, h2]

/-- C4 (witness): the theorem instantiated at T = 27 °C, R = 45 %,
W = 3 m/s. -/
theorem heat_index_wind_chill_missing_iff_witness :
    ((0 : ℚ) ≤ 45 ∧ (45 : ℚ) ≤ 100 ∧ (0 : ℚ) ≤ 3) ∧
    ((heat_index dummyOps 27 45 = .ok none ↔ (27 : ℚ) < 26.7 ∨ (45 : ℚ) < 40) ∧
     (wind_chill dummyOps 27 3 = .ok none ↔ (27 : ℚ) > 10 ∨ (3 : ℚ) < 1.34)) :=
  ⟨⟨by norm_num, by norm_num, by norm_num⟩,
    heat_index_wind_chill_missing_iff dummyOps 27 45 3 (by norm_num)
      (by norm_num) (by norm_num)⟩

/-- C6: with no year delivering data (0 years, 0 samples, below the default
minima of 15 years / 8 samples), coverage is inadequate and the collector's
epilogue hits `settings.coverage_enforce`; `coverage_enforce` is not among
the fields declared on `Settings` in config.py, so the run ends in an
`AttributeError` instead of the claimed `InsufficientCoverage` error. -/
theorem coverage_enforce_field_missing_bug :
    collect_samples_finalize 0 0 defaultSettings
      = .error (.attributeError "coverage_enforce") ∧
    "coverage_enforce" ∉ settingsFieldNames := by
  constructor
  · rfl
  · decide

/-- C7: the tenacity filter on `_make_request` retries only the two httpx
exception types, but the request body converts every httpx error into a
PowerAPI error before it escapes, so every call performs exactly one attempt;
in particular a 429 response surfaces as `PowerAPIRateLimitError` after a
single attempt instead of being retried. -/
theorem make_request_never_retries_429_bug :
    (∀ behavior : ℕ → AttemptOutcome, (make_request_run behavior).2 = 1) ∧
    make_request_run (fun _ => .status 429) = (.error .powerRateLimit, 1) := by
  constructor
  · intro behavior
    show (retry_call behavior 1 3).2 = 1
    rcases ho : behavior 1 with code | _
    · by_cases h429 : code = 429
      · simp [retry_call, make_request_body, client_get, raise_for_status,
          ho, h429, tenacity_retry_pred, Except.bind]
      · by_cases h400 : 400 ≤ code
        · simp [retry_call, make_request_body, client_get, raise_for_status,
            ho, h429, h400, tenacity_retry_pred, Except.bind]
        · simp [retry_call, make_request_body, client_get, raise_for_status,
            ho, h429, h400, tenacity_retry_pred, Except.bind]
    · simp [retry_call, make_request_body, client_get, tenacity_retry_pred,
        Except.bind, ho]
  · rfl

/-- C8 (counterexample): the daily fetch returns the payload with the raw
sentinel untouched, and the collector builds a WeatherSample whose
temperature field holds -999. -/
theorem collect_year_keeps_sentinel_counterexample :
    get_daily_data_result c8response = .ok c8response ∧
    (collect_year_samples c8dateInfo 0 0 c8response).map
      (fun s => s.temperature_c) = [-999] := by
  constructor
  · rfl
  · rfl

/-- C8 (amended): `get_daily_data` performs no sentinel normalisation: once
the response passes structural validation it is returned verbatim, -999
values included. -/
theorem get_daily_data_returns_payload_verbatim (r : PowerResponse)
    (h1 : r.hasError = false) (h2 : r.parameter.isSome = true) :
    get_daily_data_result r = .ok r := by
  cases hp : r.parameter with
  | none => rw [hp] at h2; simp at h2
  | some ps =>
    simp [get_daily_data_result, validate_response_data, h1, hp, Except.bind]

/-- C8 (witness): the amended theorem at the concrete response carrying
-999. -/
theorem get_daily_data_returns_payload_verbatim_witness :
    (c8response.hasError = false ∧ c8response.parameter.isSome = true) ∧
    get_daily_data_result c8response = .ok c8response :=
  ⟨⟨rfl, rfl⟩, get_daily_data_returns_payload_verbatim c8response rfl rfl⟩

theorem calculate_ols_small (ops : Ops) (xs ys : List ℚ) (h : xs.length < 3) :
    calculate_ols_slope_and_pvalue ops xs ys = (0, 1) := by
  unfold calculate_ols_slope_and_pvalue
  rw [if_pos h]

/-- C9 (amended): on a sample set spanning exactly two distinct years the
trend engine still reports a trend, but its slope is 0 and its p-value 1
(the OLS helper requires at least 3 points), not the two-point OLS slope. -/
theorem calculate_trend_two_years_slope_zero (ops : Ops)
    (samples : List WeatherSampleT) (condition_type : String)
    (settings : Settings) (h : (trend_years samples).length = 2) :
    (calculate_trend ops samples condition_type settings).slope = 0 ∧
    (calculate_trend ops samples condition_type settings).p_value = 1 ∧
    (calculate_trend ops samples condition_type settings).significant = false := by
  have hlt : ¬(trend_years samples).length < 2 := by omega
  have hx : ((sortDedup (trend_years samples)).map
      (fun (y : ℤ) => (y : ℚ))).length < 3 := by
    rw [List.length_map]
    have := sortDedup_length_le (trend_years samples)
    omega
  have heq : calculate_trend ops samples condition_type settings =
      { condition := condition_type
        points := (sortDedup (trend_years samples)).map (fun y =>
          TrendPoint.mk y (year_rate samples condition_type settings y))
        slope := 0, p_value := 1, significant := false } := by
    simp only [calculate_trend]
    rw [if_neg hlt]
    rw [calculate_ols_small ops _ _ hx]
    norm_num
  refine ⟨?_, ?_, ?_⟩ <;> rw [heq]

/-- C9 (witness): the amended theorem at the two-year concrete sample set. -/
theorem calculate_trend_two_years_slope_zero_witness :
    (trend_years c9samples).length = 2 ∧
    ((calculate_trend dummyOps c9samples "wet" defaultSettings).slope = 0 ∧
     (calculate_trend dummyOps c9samples "wet" defaultSettings).p_value = 1 ∧
     (calculate_trend dummyOps c9samples "wet" defaultSettings).significant
       = false) :=
  ⟨rfl, calculate_trend_two_years_slope_zero dummyOps c9samples "wet"
    defaultSettings rfl⟩

/-- C9 (counterexample): on the two-year set the engine reports the points
(2001, 0) and (2002, 1) with slope 0, while the spec's OLS slope over those
two points is 1. -/
theorem two_year_trend_slope_counterexample :
    (calculate_trend dummyOps c9samples "wet" defaultSettings).slope = 0 ∧
    (calculate_trend dummyOps c9samples "wet" defaultSettings).points =
      [⟨2001, 0⟩, ⟨2002, 1⟩] ∧
    ols_slope_spec [2001, 2002] [0, 1] = 1 := by
  refine ⟨?_, ?_, ?_⟩
  · norm_num [calculate_trend, trend_years, c9samples, sortDedup, insertSorted,
      calculate_ols_slope_and_pvalue]
  · norm_num [calculate_trend, trend_years, c9samples, sortDedup, insertSorted,
      calculate_ols_slope_and_pvalue, year_rate, condition_exceeded,
      flag_weather_conditions, is_very_hot, is_very_cold, is_very_windy,
      is_very_wet, defaultSettings, List.filter]
    decide
  · norm_num [ols_slope_spec]

/-- C10 (amended): the very-hot, very-cold and very-windy flags of an export
row coincide with the threshold engine's flags on the sample built from the
same raw values (errors included); the very-wet flag is exempt because the
exporter divides the daily total by 24 while the engine divides by 8. -/
theorem export_hot_cold_windy_flags_match_engine (ops : Ops)
    (es : WeatherSampleE) (settings : Settings) :
    (create_export_row ops es settings).map
      (fun r => (r.flags_very_hot, r.flags_very_cold, r.flags_very_windy)) =
    (mkWeatherSampleT ops es.temperature_c es.relative_humidity
        es.wind_speed_ms es.precipitation_mm_per_day es.year).map
      (fun ts => (is_very_hot ts settings, is_very_cold ts settings,
        is_very_windy ts settings)) := by
  unfold create_export_row mkWeatherSampleT
  cases hhi : heat_index ops es.temperature_c es.relative_humidity with
  | error msg => simp [hhi, Except.bind, Except.map]
  | ok hi =>
    cases hwc : wind_chill ops es.temperature_c es.wind_speed_ms with
    | error msg => simp [hhi, hwc, Except.bind, Except.map]
    | ok wc =>
      have hfl : ∃ fl, feels_like_temperature ops es.temperature_c
          (some es.relative_humidity) (some es.wind_speed_ms) = .ok fl := by
        simp only [feels_like_temperature]
        by_cases hT : (26.7 : ℚ) ≤ es.temperature_c
        · simp only [if_pos hT, hhi, Except.bind]
          cases hi with
          | some h => exact ⟨_, rfl⟩
          | none =>
            by_cases hT2 : es.temperature_c ≤ 10
            · simp only [if_pos hT2, hwc, Except.bind]
              cases wc with
              | some c => exact ⟨_, rfl⟩
              | none => exact ⟨_, rfl⟩
            · simp only [if_neg hT2, Except.bind]
              exact ⟨_, rfl⟩
        · simp only [if_neg hT, Except.bind]
          by_cases hT2 : es.temperature_c ≤ 10
          · simp only [if_pos hT2, hwc, Except.bind]
            cases wc with
            | some c => exact ⟨_, rfl⟩
            | none => exact ⟨_, rfl⟩
          · simp only [if_neg hT2, Except.bind]
            exact ⟨_, rfl⟩
      obtain ⟨fl, hfl⟩ := hfl
      simp only [hhi, hwc, hfl, Except.bind, Except.map]
      cases hi <;> cases wc <;>
        simp [is_very_hot, is_very_cold, is_very_windy]

/-- C10 (counterexample): for the 40 mm/day sample under default settings
the exporter emits veryWet = false and anyAdverse = false, while the
threshold engine flags the same sample veryWet (and hence any-adverse). -/
theorem export_wet_flag_mismatch_counterexample :
    (create_export_row dummyOps c10sampleE defaultSettings).map
      (fun r => (r.flags_very_wet, r.flags_any_adverse)) = .ok (false, false) ∧
    mkWeatherSampleT dummyOps 25 50 3 40 2001 = .ok c10sampleT ∧
    (flag_weather_conditions c10sampleT defaultSettings).very_wet = true ∧
    any_flagged (flag_weather_conditions c10sampleT defaultSettings) = true := by
  refine ⟨?_, ?_, ?_, ?_⟩
  · norm_num [create_export_row, heat_index, wind_chill, c10sampleE,
      defaultSettings, Except.bind, Except.map]
  · norm_num [mkWeatherSampleT, heat_index, wind_chill,
      feels_like_temperature, c10sampleT, Except.bind]
  · norm_num [flag_weather_conditions, is_very_wet, c10sampleT,
      defaultSettings]
  · norm_num [any_flagged, flag_weather_conditions, is_very_hot, is_very_cold,
      is_very_windy, is_very_wet, c10sampleT, defaultSettings]

/-- C2: for every `k ≤ n`, `clopper_pearson_interval` at confidence 0.95
returns exactly the spec's case analysis with `α = 0.05`, where the
quantiles come from the bisection inverse of the continued-fraction
incomplete-beta CDF; this holds for every implementation of the
transcendental primitives. -/
theorem clopper_pearson_interval_matches_spec_cases (ops : Ops) (k n : ℕ)
    (h : k ≤ n) :
    clopper_pearson_interval ops k n 0.95 = .ok (clopper_pearson_spec ops k n) := by
  have hval : (1 : ℚ) - (1 - 0.95) / 2 = 1 - 0.05 / 2 := by norm_num
  have hval2 : ((1 : ℚ) - 0.95) / 2 = 0.05 / 2 := by norm_num
  unfold clopper_pearson_interval clopper_pearson_spec
  rw [if_neg (not_not_intro h)]
  rw [if_neg (not_not_intro
    (⟨by norm_num, by norm_num⟩ : (0 : ℚ) < 0.95 ∧ (0.95 : ℚ) < 1))]
  by_cases hn : n = 0
  · subst hn
    rw [if_pos rfl, if_pos rfl]
  · rw [if_neg hn, if_neg hn]
    have hn' : 0 < n := Nat.pos_of_ne_zero hn
    have hnq : (0 : ℚ) < (n : ℚ) := by exact_mod_cast hn'
    by_cases hk0 : k = 0
    · subst hk0
      rw [if_pos rfl, if_pos rfl, if_pos hn']
      unfold beta_inverse_cdf
      rw [if_neg (not_not_intro (⟨by norm_num, by norm_num⟩ :
        (0 : ℚ) ≤ 1 - (1 - 0.95) / 2 ∧ (1 : ℚ) - (1 - 0.95) / 2 ≤ 1))]
      rw [if_neg (by push_neg; exact ⟨by norm_num, hnq⟩ :
        ¬((1 : ℚ) ≤ 0 ∨ (n : ℚ) ≤ 0))]
      simp only [Except.bind]
      rw [hval]
    · have hkpos : 0 < k := Nat.pos_of_ne_zero hk0
      have hkq : (0 : ℚ) < (k : ℚ) := by exact_mod_cast hkpos
      rw [if_neg hk0, if_neg hk0]
      by_cases hkn : k = n
      · subst hkn
        rw [if_pos rfl, if_pos rfl, if_pos hkpos]
        unfold beta_inverse_cdf
        rw [if_neg (not_not_intro (⟨by norm_num, by norm_num⟩ :
          (0 : ℚ) ≤ (1 - 0.95) / 2 ∧ ((1 : ℚ) - 0.95) / 2 ≤ 1))]
        rw [if_neg (by push_neg; exact ⟨hkq, by norm_num⟩ :
          ¬((k : ℚ) ≤ 0 ∨ (1 : ℚ) ≤ 0))]
        simp only [Except.bind]
        rw [hval2]
      · have hklt : k < n := lt_of_le_of_ne h hkn
        have hkltq : (k : ℚ) < (n : ℚ) := by exact_mod_cast hklt
        have hknq : (k : ℚ) ≤ (n : ℚ) := le_of_lt hkltq
        rw [if_neg hkn, if_neg hkn, if_pos hkpos, if_pos hklt]
        unfold beta_inverse_cdf
        rw [if_neg (not_not_intro (⟨by norm_num, by norm_num⟩ :
          (0 : ℚ) ≤ (1 - 0.95) / 2 ∧ ((1 : ℚ) - 0.95) / 2 ≤ 1))]
        rw [if_neg (by push_neg; constructor <;> linarith :
          ¬((k : ℚ) ≤ 0 ∨ (n : ℚ) - (k : ℚ) + 1 ≤ 0))]
        rw [if_neg (not_not_intro (⟨by norm_num, by norm_num⟩ :
          (0 : ℚ) ≤ 1 - (1 - 0.95) / 2 ∧ (1 : ℚ) - (1 - 0.95) / 2 ≤ 1))]
        rw [if_neg (by push_neg; constructor <;> linarith :
          ¬((k : ℚ) + 1 ≤ 0 ∨ (n : ℚ) - (k : ℚ) ≤ 0))]
        simp only [Except.bind]
        rw [hval, hval2]

/-- C2 (witness): the theorem applied at k = 3, n = 10. -/
theorem clopper_pearson_interval_matches_spec_cases_witness :
    3 ≤ 10 ∧
    clopper_pearson_interval dummyOps 3 10 0.95
      = .ok (clopper_pearson_spec dummyOps 3 10) :=
  ⟨by decide, clopper_pearson_interval_matches_spec_cases dummyOps 3 10
    (by decide)⟩

theorem list_map_congr {α β : Type} {l : List α} {f g : α → β}
    (h : ∀ a ∈ l, f a = g a) : l.map f = l.map g := by
  induction l with
  | nil => rfl
  | cons x t ih =>
    simp only [List.map_cons]
    rw [h x (List.mem_cons_self x t), ih (fun a ha => h a (List.mem_cons_of_mem x ha))]

theorem list_toFinset_map (l : List ℤ) (f : ℤ → ℤ) :
    (l.map f).toFinset = l.toFinset.image f := by
  apply Finset.ext
  intro x
  simp [List.mem_toFinset, List.mem_map, Finset.mem_image]

theorem wrap_eq_mod (t o : ℤ) (h1 : 1 ≤ t) (h2 : t ≤ 365)
    (h3 : -365 ≤ o) (h4 : o ≤ 365) :
    (if t + o < 1 then 365 + (t + o)
     else if t + o > 365 then t + o - 365 else t + o)
      = (t - 1 + o) % 365 + 1 := by
  split_ifs <;> omega

theorem toOption_getD_ok {e a : Type} (x d : a) :
    (Except.ok x : Except e a).toOption.getD d = x := rfl

/-- C5 (counterexample): at target DOY 1 with window 366 the helper's single
wrap step produces the value 0, which is not a DOY and not in the spec's
mod-365 window set, so the claim fails for unbounded windows. -/
theorem build_date_range_wrap_counterexample :
    (0 : ℤ) ∈ (build_date_range_for_doy 1 366).toOption.getD [] ∧
    (0 : ℤ) ∉ doyWindowList 1 366 := by
  constructor
  · unfold build_date_range_for_doy
    rw [if_neg (by decide), if_neg (by decide), toOption_getD_ok]
    exact mem_sortDedup.mpr
      (List.mem_map.mpr ⟨-366, mem_intRange.mpr (by decide), by decide⟩)
  · intro hmem
    simp only [doyWindowList, List.mem_map] at hmem
    obtain ⟨o, _, hfo⟩ := hmem
    omega

/-- C5 (amended): for windows `0 ≤ w ≤ 365` the helper returns exactly the
spec's wrap set `((target − 1 + offset) mod 365) + 1`, as a sorted
deduplicated list whose size is `min (2w + 1) 365`. -/
theorem build_date_range_matches_spec_window_le_365 (t w : ℤ)
    (h1 : 1 ≤ t) (h2 : t ≤ 365) (h3 : 0 ≤ w) (h4 : w ≤ 365) :
    build_date_range_for_doy t w = .ok (sortDedup (doyWindowList t w)) ∧
    (sortDedup (doyWindowList t w)).length = min (2 * w + 1).toNat 365 := by
  constructor
  · unfold build_date_range_for_doy
    rw [if_neg (not_not_intro ⟨h1, h2⟩), if_neg (not_lt.mpr h3)]
    unfold doyWindowList
    refine congrArg Except.ok (congrArg sortDedup (list_map_congr ?_))
    intro o ho
    have hb := mem_intRange.mp ho
    exact wrap_eq_mod t o h1 h2 (by omega) (by omega)
  · rw [length_sortDedup_eq_card]
    unfold doyWindowList
    rw [list_toFinset_map]
    have hS : (intRange (-w) (w + 1)).toFinset.card = (2 * w + 1).toNat := by
      rw [List.toFinset_card_of_nodup (intRange_nodup _ _), intRange_length]
      congr 1
      omega
    by_cases hw : 2 * w + 1 ≤ 365
    · have hinj : Set.InjOn (fun offset => (t - 1 + offset) % 365 + 1)
          ((intRange (-w) (w + 1)).toFinset : Set ℤ) := by
        intro a ha b hb hab
        have ha' := mem_intRange.mp (List.mem_toFinset.mp ha)
        have hb' := mem_intRange.mp (List.mem_toFinset.mp hb)
        have hab' : (t - 1 + a) % 365 + 1 = (t - 1 + b) % 365 + 1 := hab
        omega
      rw [Finset.card_image_of_injOn hinj, hS, min_eq_left (by omega)]
    · have himg : (intRange (-w) (w + 1)).toFinset.image
          (fun offset => (t - 1 + offset) % 365 + 1) = Finset.Icc (1 : ℤ) 365 := by
        apply Finset.ext
        intro v
        simp only [Finset.mem_image, List.mem_toFinset, Finset.mem_Icc]
        constructor
        · rintro ⟨o, ho, rfl⟩
          constructor <;> omega
        · intro hv
          refine ⟨(v - t + 182) % 365 - 182,
            mem_intRange.mpr ⟨by omega, by omega⟩, by omega⟩
      rw [himg, Int.card_Icc, min_eq_right (by omega)]
      decide

/-- C5 (witness): the amended theorem at target 3, window 5, the spec's own
worked example. -/
theorem build_date_range_matches_spec_window_le_365_witness :
    ((1 : ℤ) ≤ 3 ∧ (3 : ℤ) ≤ 365 ∧ (0 : ℤ) ≤ 5 ∧ (5 : ℤ) ≤ 365) ∧
    (build_date_range_for_doy 3 5 = .ok (sortDedup (doyWindowList 3 5)) ∧
     (sortDedup (doyWindowList 3 5)).length = min (2 * (5 : ℤ) + 1).toNat 365) :=
  ⟨⟨by decide, by decide, by decide, by decide⟩,
    build_date_range_matches_spec_window_le_365 3 5 (by decide) (by decide)
      (by decide) (by decide)⟩
